import Mathlib

/-!
Shallow embedding of `src/error.rs` from the jiff repository: the unified
`Error` type, its `ErrorKind` payloads, the leaf constructors, the `Display`
rendering of the causal chain, the `IntoError` normalization trait and the
`ErrorContext` context-attachment protocol (over both `Error` and
`Result<T, Error>`).

Modelling conventions:
* `Arc<ErrorInner>` provides shared ownership of an immutable record; in a
  pure embedding it is value semantics, so `Error` is an inductive holding
  the `kind` and the `cause : Option Error` of `ErrorInner` directly.
* `AdhocError(Box<dyn Display>)` is a type-erased displayable; the only
  observation the code ever makes of it is its rendered text, so it is
  modelled by that text (a `String`).
* `std::io::Error` and `std::path::PathBuf` are likewise observed only
  through their `Display` text, and are modelled by that text.
* A Rust `panic!`/failed `assert!` is modelled by returning `none`;
  a normal return of `v` is `some v`.
* Numeric payloads `u128`/`i128` carry no arithmetic in this file (they are
  only formatted), so they are modelled by `Nat`/`Int`.
-/

namespace Jiff

/-- Rust `RangeErrorKind` from `error.rs`: the three shapes of a numeric range
error.  `Positive` holds an unsigned given value (`u128`, modelled `Nat`);
`Negative` and `Specific` hold signed ones (`i128`, modelled `Int`). -/
inductive RangeErrorKind where
  | positive (what : String) (given : Nat) (min max : Int)
  | negative (what : String) (given : Int) (min max : Int)
  | specific (what : String) (given : Int)
deriving DecidableEq, Repr

/-- Rust `Display for RangeError` from `error.rs` (the `RangeError` newtype is a
`Box<RangeErrorKind>`; the box is erased here). -/
def RangeErrorKind.display : RangeErrorKind → String
  | .positive what given min max =>
      "parameter '" ++ what ++ "' with value " ++ toString given ++
        " is not in the required range of " ++ toString min ++ "..=" ++
        toString max
  | .negative what given min max =>
      "parameter '" ++ what ++ "' with value " ++ toString given ++
        " is not in the required range of " ++ toString min ++ "..=" ++
        toString max
  | .specific what given =>
      "parameter '" ++ what ++ "' with value " ++ toString given ++
        " is illegal"

/-- Rust `ErrorKind` from `error.rs`, the closed tagged union of the five leaf
payloads (full-capability/`std` build, in which all five are inhabited).
`adhoc` carries the rendered text of the boxed displayable, `timeZoneLookup`
the looked-up name, `filePath` the path text, `io` the OS error text. -/
inductive ErrorKind where
  | adhoc (msg : String)
  | range (err : RangeErrorKind)
  | timeZoneLookup (name : String)
  | filePath (path : String)
  | io (err : String)
deriving DecidableEq, Repr

/-- Rust `Display for ErrorKind` from `error.rs`: delegates to each payload's
`Display`.  `TimeZoneLookupError` renders
`failed to find timezone '<name>' in time zone database`; `FilePathError`
renders only the path; `IOError` renders the OS error's own text. -/
def ErrorKind.display : ErrorKind → String
  | .adhoc msg => msg
  | .range err => err.display
  | .timeZoneLookup name =>
      "failed to find timezone '" ++ name ++ "' in time zone database"
  | .filePath path => path
  | .io err => err

/-- Rust `Error` from `error.rs`: `struct Error { inner: Arc<ErrorInner> }` with
`struct ErrorInner { kind: ErrorKind, cause: Option<Error> }`.  The `Arc`
indirection is value semantics here, so the handle is its kind together
with its optional causal predecessor. -/
inductive Error where
  | mk (kind : ErrorKind) (cause : Option Error)

/-- Projection of the `kind` field of `ErrorInner`. -/
def Error.kind : Error → ErrorKind
  | .mk k _ => k

/-- Projection of the `cause` field of `ErrorInner`. -/
def Error.cause : Error → Option Error
  | .mk _ c => c

/-- Rust `Display for Error` from `error.rs`: write the current kind's text, and
as long as a cause exists, write `": "` and continue with the cause. -/
def Error.display : Error → String
  | .mk k none => k.display
  | .mk k (some c) => k.display ++ ": " ++ Error.display c

/-- Rust `From<ErrorKind> for Error`: wrap a kind with `cause: None`. -/
def Error.fromKind (kind : ErrorKind) : Error := .mk kind none

/-- Rust `Error::adhoc`: leaf constructor for an ad hoc displayable (modelled by
its rendered text). -/
def Error.adhoc (err : String) : Error := Error.fromKind (.adhoc err)

/-- Rust `Error::unsigned`: leaf constructor for an unsigned range error. -/
def Error.unsigned (what : String) (given : Nat) (min max : Int) : Error :=
  Error.fromKind (.range (.positive what given min max))

/-- Rust `Error::signed`: leaf constructor for a signed range error. -/
def Error.signed (what : String) (given : Int) (min max : Int) : Error :=
  Error.fromKind (.range (.negative what given min max))

/-- Rust `Error::specific`: leaf constructor for a categorically illegal value. -/
def Error.specific (what : String) (given : Int) : Error :=
  Error.fromKind (.range (.specific what given))

/-- Rust `Error::time_zone_lookup`: leaf constructor for a failed time zone
lookup. -/
def Error.timeZoneLookup (name : String) : Error :=
  Error.fromKind (.timeZoneLookup name)

/-- Rust `Error::io`: leaf constructor wrapping an OS error (modelled by its
text).  Only present in the `std` build. -/
def Error.io (err : String) : Error := Error.fromKind (.io err)

/-- The `IntoError` trait of `error.rs` has exactly three implementations:
`Error`, `&'static str` and `String`.  An argument position of type
`impl IntoError` is therefore modelled by this closed sum. -/
inductive IntoErrorArg where
  | err (e : Error)
  | staticStr (s : String)
  | ownedString (s : String)

/-- The three `IntoError::into_error` implementations: an `Error` converts
to itself, both text forms convert via `Error::adhoc`. -/
def IntoErrorArg.intoError : IntoErrorArg → Error
  | .err e => e
  | .staticStr s => Error.adhoc s
  | .ownedString s => Error.adhoc s

/-- Rust `ErrorContext::context for Error`: convert the consequent, assert that
its cause is `None` (a failed assertion, i.e. a panic, is `none` here), then
set its cause to `self` and return it. -/
def Error.context (self : Error) (consequent : IntoErrorArg) : Option Error :=
  match consequent.intoError with
  | .mk kind none => some (.mk kind (some self))
  | .mk _ (some _) => none

/-- Rust `ErrorContext::with_context for Error`: like `context`, but the
consequent is produced by a zero-argument closure, which this `Error`
receiver invokes immediately. -/
def Error.withContext (self : Error) (consequent : Unit → IntoErrorArg) :
    Option Error :=
  match (consequent ()).intoError with
  | .mk kind none => some (.mk kind (some self))
  | .mk _ (some _) => none

/-- Rust `Error::path`: contextualize `self` with a `FilePath` consequent built
from the given path.  Only present in the `std` build. -/
def Error.path (self : Error) (path : String) : Option Error :=
  Error.context self (.err (Error.fromKind (.filePath path)))

/-- Rust `Error::fs`: convenience constructor `Error::io(err).path(path)`.  Only
present in the `std` build. -/
def Error.fs (path : String) (err : String) : Option Error :=
  (Error.io err).path path

/-- Rust `ErrorContext::context for Result<T, Error>`: `map_err` the failure case
through `Error::context`, passing `Ok` through untouched.  A panic inside
the mapped `context` propagates, hence the `Option`. -/
def resultContext {α : Type} (self : Except Error α) (consequent : IntoErrorArg) :
    Option (Except Error α) :=
  match self with
  | .ok v => some (.ok v)
  | .error e => Option.map Except.error (Error.context e consequent)

/-- Rust `ErrorContext::with_context for Result<T, Error>`: `map_err` the failure
case through `Error::with_context`; on `Ok` the closure inside `map_err` is
never run, so the producer is never invoked. -/
def resultWithContext {α : Type} (self : Except Error α)
    (consequent : Unit → IntoErrorArg) : Option (Except Error α) :=
  match self with
  | .ok v => some (.ok v)
  | .error e => Option.map Except.error (Error.withContext e consequent)

/-- Rust `IOError` struct in the reduced-capability build
(`not(feature = "std")`): its single field `err: std::io::Error` is gated on
`std` and compiled out, leaving a field-less struct. -/
structure IoErrorNoStd where

/-- Rust `FilePathError` struct in the reduced-capability build: its single
field `path: std::path::PathBuf` is gated on `std` and compiled out. -/
structure FilePathErrorNoStd where

/-- Rust `Display for IOError` in the reduced-capability branch: writes the
sentinel bug marker. -/
def IoErrorNoStd.display (_ : IoErrorNoStd) : String :=
  "<BUG: SHOULD NOT EXIST>"

/-- Rust `Display for FilePathError` in the reduced-capability branch: writes
the sentinel bug marker. -/
def FilePathErrorNoStd.display (_ : FilePathErrorNoStd) : String :=
  "<BUG: SHOULD NOT EXIST>"

/-- Rust `ErrorKind` as it exists in the reduced-capability build: the same
five variants (the enum shape is not `cfg`-gated), with the capability-gated
payload types in the `FilePath` and `IO` positions. -/
inductive ErrorKindNoStd where
  | adhoc (msg : String)
  | range (err : RangeErrorKind)
  | timeZoneLookup (name : String)
  | filePath (path : FilePathErrorNoStd)
  | io (err : IoErrorNoStd)

/-- Rust `Display for ErrorKind` in the reduced-capability build: delegates to
each payload's `Display`; for the gated variants that is the sentinel branch.
It is a total function: no branch panics. -/
def ErrorKindNoStd.display : ErrorKindNoStd → String
  | .adhoc msg => msg
  | .range err => err.display
  | .timeZoneLookup name =>
      "failed to find timezone '" ++ name ++ "' in time zone database"
  | .filePath err => err.display
  | .io err => err.display

end Jiff

namespace Jiff

/-- Associativity of string concatenation, used to state chained renderings
without nested grouping. -/
theorem string_append_assoc (a b c : String) : a ++ b ++ c = a ++ (b ++ c) := by
  cases a with
  | mk la =>
    cases b with
    | mk lb =>
      cases c with
      | mk lc => exact congrArg String.mk (List.append_assoc la lb lc)

/-- Claim C1: for every `Error` `c` and consequent argument `e`, `context c e`
(and `with_context` with a producer returning `e`) panics — modelled as
`none` — exactly when the `Error` obtained by converting `e` already has a
cause, and returns normally (`some`) otherwise.  Since the panic path returns
no value at all, no earlier cause is ever overwritten or silently dropped. -/
theorem claim_C1_context_asserts_cause_free_consequent :
    (∀ (c : Error) (e : IntoErrorArg),
        Error.context c e = none ↔ e.intoError.cause ≠ none) ∧
    (∀ (c : Error) (f : Unit → IntoErrorArg),
        Error.withContext c f = none ↔ (f ()).intoError.cause ≠ none) := by
  constructor
  · intro c e
    rcases h : e.intoError with ⟨k, _ | c'⟩ <;>
      simp [Error.context, h, Error.cause]
  · intro c f
    rcases h : (f ()).intoError with ⟨k, _ | c'⟩ <;>
      simp [Error.withContext, h, Error.cause]

/-- Claim C2: for every `Error` `self` and cause-free consequent `e`,
`context self e` returns a new `Error` whose kind is the consequent's kind
and whose cause is `Some self` (the value `self` itself is unchanged — the
embedding is pure, so this is automatic); consequently for leaf errors
`A`, `B`, `C`, `A.context(B)` renders as `B-text: A-text` and
`A.context(B).context(C)` renders as `C-text: B-text: A-text`. -/
theorem claim_C2_context_new_error_and_chain_rendering :
    (∀ (self e : Error), e.cause = none →
        Error.context self (.err e) = some (.mk e.kind (some self))) ∧
    (∀ (A B : Error), A.cause = none → B.cause = none →
        Option.map Error.display (Error.context A (.err B)) =
          some (B.kind.display ++ ": " ++ A.kind.display)) ∧
    (∀ (A B C : Error), A.cause = none → B.cause = none → C.cause = none →
        Option.map Error.display
            ((Error.context A (.err B)).bind fun ab => Error.context ab (.err C)) =
          some (C.kind.display ++ ": " ++ B.kind.display ++ ": " ++
            A.kind.display)) := by
  refine ⟨?_, ?_, ?_⟩
  · rintro self ⟨k, c⟩ he
    simp only [Error.cause] at he
    subst he
    rfl
  · rintro ⟨ka, ca⟩ ⟨kb, cb⟩ ha hb
    simp only [Error.cause] at ha hb
    subst ha; subst hb
    rfl
  · rintro ⟨ka, ca⟩ ⟨kb, cb⟩ ⟨kc, cc⟩ ha hb hc
    simp only [Error.cause] at ha hb hc
    subst ha; subst hb; subst hc
    show some (kc.display ++ ": " ++ (kb.display ++ ": " ++ ka.display)) =
      some (kc.display ++ ": " ++ kb.display ++ ": " ++ ka.display)
    simp [string_append_assoc]

/-- Witness for C2 at the concrete leaf errors `adhoc "A"`, `adhoc "B"` and
`adhoc "C"`. -/
theorem claim_C2_witness :
    Error.context (Error.adhoc "A") (.err (Error.adhoc "B")) =
        some (.mk (.adhoc "B") (some (Error.adhoc "A"))) ∧
    Option.map Error.display
        (Error.context (Error.adhoc "A") (.err (Error.adhoc "B"))) =
      some ("B" ++ ": " ++ "A") ∧
    Option.map Error.display
        ((Error.context (Error.adhoc "A") (.err (Error.adhoc "B"))).bind
          fun ab => Error.context ab (.err (Error.adhoc "C"))) =
      some ("C" ++ ": " ++ "B" ++ ": " ++ "A") :=
  ⟨claim_C2_context_new_error_and_chain_rendering.1
      (Error.adhoc "A") (Error.adhoc "B") rfl,
    claim_C2_context_new_error_and_chain_rendering.2.1
      (Error.adhoc "A") (Error.adhoc "B") rfl rfl,
    claim_C2_context_new_error_and_chain_rendering.2.2
      (Error.adhoc "A") (Error.adhoc "B") (Error.adhoc "C") rfl rfl rfl⟩

/-- Claim C3: each leaf payload renders exactly the contracted text —
unsigned and signed range errors as
`parameter '<field>' with value <given> is not in the required range of
<min>..=<max>`, specific range errors as
`parameter '<field>' with value <given> is illegal`, and time zone lookup
errors as `failed to find timezone '<name>' in time zone database`; in
particular `unsigned "day" 40 1 31` renders as
`parameter 'day' with value 40 is not in the required range of 1..=31`. -/
theorem claim_C3_leaf_payload_rendered_text :
    (∀ (what : String) (given : Nat) (lo hi : Int),
        (Error.unsigned what given lo hi).display =
          "parameter '" ++ what ++ "' with value " ++ toString given ++
            " is not in the required range of " ++ toString lo ++ "..=" ++
            toString hi) ∧
    (∀ (what : String) (given lo hi : Int),
        (Error.signed what given lo hi).display =
          "parameter '" ++ what ++ "' with value " ++ toString given ++
            " is not in the required range of " ++ toString lo ++ "..=" ++
            toString hi) ∧
    (∀ (what : String) (given : Int),
        (Error.specific what given).display =
          "parameter '" ++ what ++ "' with value " ++ toString given ++
            " is illegal") ∧
    (∀ name : String,
        (Error.timeZoneLookup name).display =
          "failed to find timezone '" ++ name ++ "' in time zone database") ∧
    (Error.unsigned "day" 40 1 31).display =
      "parameter 'day' with value 40 is not in the required range of 1..=31" :=
  ⟨fun _ _ _ _ => rfl, fun _ _ _ _ => rfl, fun _ _ => rfl, fun _ => rfl,
    by decide⟩

/-- Claim C4: every `Error` returned directly by a leaf constructor
(`adhoc`, `unsigned`, `signed`, `specific`, `time_zone_lookup`) has
`cause = None`, and therefore its full chain rendering is exactly its single
kind's text — no `": "` separator is introduced by the chain walker. -/
theorem claim_C4_leaf_constructors_cause_free :
    (∀ s, (Error.adhoc s).cause = none ∧
        (Error.adhoc s).display = (Error.adhoc s).kind.display) ∧
    (∀ (what : String) (given : Nat) (lo hi : Int),
        (Error.unsigned what given lo hi).cause = none ∧
        (Error.unsigned what given lo hi).display =
          (Error.unsigned what given lo hi).kind.display) ∧
    (∀ (what : String) (given lo hi : Int),
        (Error.signed what given lo hi).cause = none ∧
        (Error.signed what given lo hi).display =
          (Error.signed what given lo hi).kind.display) ∧
    (∀ (what : String) (given : Int),
        (Error.specific what given).cause = none ∧
        (Error.specific what given).display =
          (Error.specific what given).kind.display) ∧
    (∀ name : String,
        (Error.timeZoneLookup name).cause = none ∧
        (Error.timeZoneLookup name).display =
          (Error.timeZoneLookup name).kind.display) :=
  ⟨fun _ => ⟨rfl, rfl⟩, fun _ _ _ _ => ⟨rfl, rfl⟩, fun _ _ _ _ => ⟨rfl, rfl⟩,
    fun _ _ => ⟨rfl, rfl⟩, fun _ => ⟨rfl, rfl⟩⟩

/-- Claim C5: `IntoError` normalization round-trips through text — an
existing `Error` converts to itself unchanged, both text forms convert via
`Error::adhoc`, and using a literal string as a `context`/`with_context`
argument produces exactly the same result (hence the same rendered text) as
first constructing `Error::adhoc` of it and using that `Error`. -/
theorem claim_C5_into_error_normalization :
    (∀ e : Error, IntoErrorArg.intoError (.err e) = e) ∧
    (∀ s, IntoErrorArg.intoError (.staticStr s) = Error.adhoc s) ∧
    (∀ s, IntoErrorArg.intoError (.ownedString s) = Error.adhoc s) ∧
    (∀ (self : Error) (s : String),
        Error.context self (.staticStr s) =
          Error.context self (.err (Error.adhoc s)) ∧
        Error.context self (.ownedString s) =
          Error.context self (.err (Error.adhoc s)) ∧
        Error.withContext self (fun _ => .staticStr s) =
          Error.context self (.err (Error.adhoc s)) ∧
        Error.withContext self (fun _ => .ownedString s) =
          Error.context self (.err (Error.adhoc s))) :=
  ⟨fun _ => rfl, fun _ => rfl, fun _ => rfl,
    fun _ _ => ⟨rfl, rfl, rfl, rfl⟩⟩

/-- Claim C6: over `Result`-shaped values, `context` and `with_context`
transform only the failure case and pass a success value through completely
unchanged; on a success value the result does not depend on the producer at
all (the closure inside `map_err` is never run), and on a failure the same
`Error`-level transformation is applied. -/
theorem claim_C6_result_context_success_passthrough :
    (∀ (α : Type) (v : α) (c : IntoErrorArg),
        resultContext (Except.ok v) c = some (Except.ok v)) ∧
    (∀ (α : Type) (v : α) (f : Unit → IntoErrorArg),
        resultWithContext (Except.ok v) f = some (Except.ok v)) ∧
    (∀ (α : Type) (v : α) (f g : Unit → IntoErrorArg),
        resultWithContext (Except.ok v) f = resultWithContext (Except.ok v) g) ∧
    (∀ (α : Type) (e : Error) (c : IntoErrorArg),
        resultContext (Except.error e : Except Error α) c =
          Option.map Except.error (Error.context e c)) ∧
    (∀ (α : Type) (e : Error) (f : Unit → IntoErrorArg),
        resultWithContext (Except.error e : Except Error α) f =
          Option.map Except.error (Error.withContext e f)) :=
  ⟨fun _ _ _ => rfl, fun _ _ _ => rfl, fun _ _ _ _ => rfl,
    fun _ _ _ => rfl, fun _ _ _ => rfl⟩

/-- Counterexample to C8 as stated: in the reduced-capability build the
`IOError` and `FilePathError` payload structs have their only field compiled
out, which leaves field-less structs — each is inhabited (by exactly one
value), not uninhabited. -/
theorem claim_C8_counterexample :
    Nonempty IoErrorNoStd ∧ Nonempty FilePathErrorNoStd :=
  ⟨⟨⟨⟩⟩, ⟨⟨⟩⟩⟩

/-- Claim C8 as amended: in the reduced-capability build the `FilePath` and
`IO` payload types are field-less unit-like types carrying exactly one
informationless value (so no OS error or path data can ever inhabit them,
though the types themselves are not empty), the `ErrorKind` enum keeps the
same five variants, and displaying such a variant renders the sentinel bug
marker `<BUG: SHOULD NOT EXIST>` rather than panicking. -/
theorem claim_C8_amended_reduced_build_payloads :
    (∀ x : IoErrorNoStd,
        ErrorKindNoStd.display (.io x) = "<BUG: SHOULD NOT EXIST>") ∧
    (∀ x : FilePathErrorNoStd,
        ErrorKindNoStd.display (.filePath x) = "<BUG: SHOULD NOT EXIST>") ∧
    (∀ x y : IoErrorNoStd, x = y) ∧
    (∀ x y : FilePathErrorNoStd, x = y) :=
  ⟨fun _ => rfl, fun _ => rfl,
    fun x y => by cases x; cases y; rfl,
    fun x y => by cases x; cases y; rfl⟩

/-- Claim C9: for every path `p` and OS error `e`, `Error::fs(p, e)` produces
an `Error` whose kind is `FilePath(p)` and whose cause is the leaf `IO` error
wrapping `e`, and it renders as exactly the two segments
`<path>: <os error text>`. -/
theorem claim_C9_fs_builds_filepath_over_io :
    ∀ (p e : String),
      Error.fs p e = some (.mk (.filePath p) (some (.mk (.io e) none))) ∧
      Option.map Error.display (Error.fs p e) = some (p ++ ": " ++ e) :=
  fun _ _ => ⟨rfl, rfl⟩

end Jiff
